import Mathlib

/-!
Shallow embedding of the notifications building block core
(`core/services.go`, `core/model/user.go`, `core/model/message.go`).

Modelling conventions:

* A Go `*string` is modelled as `Option Nat`: `none` is the nil pointer and
  `some a` is a pointer to the heap cell with address `a`.  A heap
  `Nat → String` supplies the value of each cell.  This keeps Go's pointer
  semantics: `p == q` on two `*string` values compares the *addresses*
  (so two distinct cells holding equal strings compare unequal, and two nil
  pointers compare equal), and dereferencing `nil` panics.  The code under
  study compares `*string` fields with `==` and dereferences them, so both
  behaviours are observable.
* Go pointers to structs (`*Sender`, `*ShibbolethUser`, `*Message`) are never
  compared with `==` by the code, only nil-tested and dereferenced, so they
  are modelled as plain `Option` of the struct.
* A function that can hit a nil-pointer dereference returns `Option _`,
  where `none` marks the panic.
* The storage and firebase adapters are external collaborators; each call the
  core makes to them is modelled by an oracle function passed as a parameter,
  and the sequence of adapter calls actually issued is returned as an explicit
  event trace (`SEvent`).  A Go `error` is modelled as `Option String`
  (`none` = nil error, `some e` = the error message).
-/

namespace Model

/-- Go `*string`: nil, or the address of a string cell. -/
abbrev GoStr := Option Nat

/-- Go struct `ShibbolethUser` (fields `Uin`, `Email`, `Phone`, `Membership`,
all pointers). -/
structure ShibbolethUser where
  Uin : GoStr
  Email : GoStr
  Phone : GoStr
  Membership : Option (List String)
  deriving DecidableEq

/-- Go struct `Recipient` (fields `UserID`, `Name` are `*string`). -/
structure Recipient where
  UserID : GoStr
  Name : GoStr
  NotificationDisabled : Bool
  deriving DecidableEq

/-- Go struct `Sender`.  The Go field `Type` ("user" or "system") is renamed
`SType` because `Type` is reserved in Lean; `User` keeps its name. -/
structure Sender where
  SType : String
  User : Option ShibbolethUser
  deriving DecidableEq

/-- Go struct `Message`.  `ID` and `Topic` are `*string`; `Sender` is a
`*Sender`; the `*time.Time` stamps are opaque optional integers; `Data`
(`map[string]string`) is a list of key/value pairs. -/
structure Message where
  ID : GoStr
  DateCreated : Option Int
  DateUpdated : Option Int
  Priority : Int
  Recipients : List Recipient
  Topic : GoStr
  Subject : String
  Sender : Option Sender
  Body : String
  Data : List (String × String)
  deriving DecidableEq

/-- Go struct `User` (the token/topic registry record).  The Go slices
`Tokens`/`Topics` are nil-testable, hence `Option (List String)`. -/
structure User where
  ID : String
  Tokens : Option (List String)
  UserID : GoStr
  Topics : Option (List String)
  DateCreated : Int
  DateUpdated : Int
  deriving DecidableEq

/-- Go `func (t *User) AddToken(token string)`: replace a nil list by the
empty one (`Option.getD []`), then append `token` unless some entry already
equals it. -/
def User.AddToken (t : User) (token : String) : User :=
  if (t.Tokens.getD []).any (fun entry => token == entry) then
    { t with Tokens := some (t.Tokens.getD []) }
  else { t with Tokens := some (t.Tokens.getD [] ++ [token]) }

/-- Go `func (t *User) RemoveToken(token string)`: when the list is not nil,
rebuild it keeping exactly the entries different from `token`. -/
def User.RemoveToken (t : User) (token : String) : User :=
  match t.Tokens with
  | none => t
  | some l => { t with Tokens := some (l.filter (fun entry => entry != token)) }

/-- Go `func (t *User) AddTopic(topic string)`: same shape as `AddToken`,
acting on `Topics`. -/
def User.AddTopic (t : User) (topic : String) : User :=
  if (t.Topics.getD []).any (fun entry => topic == entry) then
    { t with Topics := some (t.Topics.getD []) }
  else { t with Topics := some (t.Topics.getD [] ++ [topic]) }

/-- Go `func (t *User) RemoveTopic(topic string)`: same shape as
`RemoveToken`, acting on `Topics`. -/
def User.RemoveTopic (t : User) (topic : String) : User :=
  match t.Topics with
  | none => t
  | some l => { t with Topics := some (l.filter (fun entry => entry != topic)) }

/-- Go `func (m *Message) HasUser(user *ShibbolethUser) bool`.  The recipient
loop runs first; only when no recipient matches does the code evaluate
`m.Sender.User`, which dereferences the `Sender` pointer — `none` here models
that nil-pointer panic.  Both comparisons (`recipient.UserID == user.Email`
and `user.Email == m.Sender.User.Email`) are Go pointer comparisons, hence
address equality on `GoStr`. -/
def Message.HasUser (m : Message) (user : Option ShibbolethUser) : Option Bool :=
  match user with
  | none => some false
  | some u =>
    if m.Recipients.any (fun recipient => recipient.UserID == u.Email) then some true
    else
      match m.Sender with
      | none => none
      | some s =>
        match s.User with
        | none => some false
        | some su => some (u.Email == su.Email)

end Model

namespace Core

/-- One adapter call issued by the core: each constructor records one call to
the Durable Store (`store…`) or to the Push Gateway (`fb…`), with the
arguments the Go code passes. -/
inductive SEvent where
  | storeCreateMessage (m : Model.Message)
  | storeGetTokens (recipients : List Model.Recipient)
  | fbSendToken (token : String)
  | fbSendTopic (topic : String)
  | storeSub (token : String) (email : Model.GoStr) (topic : String)
  | fbSub (token : String) (topic : String)
  | storeUnsub (token : String) (email : Model.GoStr) (topic : String)
  | fbUnsub (token : String) (topic : String)
  | storeGetMessage (id : String)
  | storeUpdateMessage (m : Model.Message)
  | storeDeleteUserMessage (email : String) (id : String)
  deriving DecidableEq

/-- Go `func (app *Application) subscribeToTopic(token, user, topic)`:
with a user, write the store first (`storage.SubscribeToTopic(token,
user.Email, topic)` — note the `Email` *pointer* is passed) and call the
gateway only on store success; without a user but with a non-empty token,
call only the gateway; otherwise do nothing and return the nil error. -/
def subscribeToTopic (token : String) (user : Option Model.ShibbolethUser) (topic : String)
    (storeSub : String → Model.GoStr → String → Option String)
    (fbSub : String → String → Option String) :
    Option String × List SEvent :=
  match user with
  | some u =>
    match storeSub token u.Email topic with
    | none => (fbSub token topic, [SEvent.storeSub token u.Email topic, SEvent.fbSub token topic])
    | some e => (some e, [SEvent.storeSub token u.Email topic])
  | none =>
    if token ≠ "" then (fbSub token topic, [SEvent.fbSub token topic])
    else (none, [])

/-- Go `func (app *Application) unsubscribeToTopic(token, user, topic)`:
the exact mirror of `subscribeToTopic` with the unsubscribe adapter calls. -/
def unsubscribeToTopic (token : String) (user : Option Model.ShibbolethUser) (topic : String)
    (storeUnsub : String → Model.GoStr → String → Option String)
    (fbUnsub : String → String → Option String) :
    Option String × List SEvent :=
  match user with
  | some u =>
    match storeUnsub token u.Email topic with
    | none => (fbUnsub token topic, [SEvent.storeUnsub token u.Email topic, SEvent.fbUnsub token topic])
    | some e => (some e, [SEvent.storeUnsub token u.Email topic])
  | none =>
    if token ≠ "" then (fbUnsub token topic, [SEvent.fbUnsub token topic])
    else (none, [])

/-- Sender stamping at the start of `createMessage`: with a user, a "user"
sender holding a snapshot of `Uin`/`Email`/`Phone` (the `Membership` field is
not copied); otherwise a "system" sender with no user. -/
def setSender (user : Option Model.ShibbolethUser) (message : Model.Message) : Model.Message :=
  match user with
  | some u =>
    { message with
      Sender := some { SType := "user",
                       User := some { Uin := u.Uin, Email := u.Email, Phone := u.Phone,
                                      Membership := none } } }
  | none => { message with Sender := some { SType := "system", User := none } }

/-- Go `func (app *Application) createMessage(user, message)`.  Faithful to
the source, including its quirks: after `storage.CreateMessage` the outer
`err` is NOT checked before the fan-out; in the recipients branch
`tokens, err := storage.GetFirebaseTokensByRecipients(...)` shadows the outer
`err`, and each `firebase.SendNotificationToToken` result (`sendErr`) is only
logged, never returned; in the topic branch
`err = firebase.SendNotificationToTopic(*message.Topic, ...)` overwrites the
outer `err`.  The final `if err != nil` then decides the return value. -/
def createMessage (heap : Nat → String)
    (user : Option Model.ShibbolethUser) (message : Model.Message)
    (storeCreate : Model.Message → Option Model.Message × Option String)
    (storeGetTokens : List Model.Recipient → List String × Option String)
    (fbSendToken : String → Option String)
    (fbSendTopic : String → Option String) :
    (Option Model.Message × Option String) × List SEvent :=
  match message.ID with
  | some a =>
    ((none, some ("message with id (" ++ heap a ++ "): is already sent")), [])
  | none =>
    let msg := setSender user message
    let (persisted, err) := storeCreate msg
    if msg.Recipients ≠ [] then
      let (tokens, gerr) := storeGetTokens msg.Recipients
      match gerr with
      | some e =>
        ((none, some e), [SEvent.storeCreateMessage msg, SEvent.storeGetTokens msg.Recipients])
      | none =>
        let evs := [SEvent.storeCreateMessage msg, SEvent.storeGetTokens msg.Recipients]
                     ++ tokens.map SEvent.fbSendToken
        match err with
        | some e => ((none, some e), evs)
        | none => ((persisted, none), evs)
    else
      match msg.Topic with
      | some t =>
        match fbSendTopic (heap t) with
        | some e =>
          ((none, some e), [SEvent.storeCreateMessage msg, SEvent.fbSendTopic (heap t)])
        | none =>
          ((persisted, none), [SEvent.storeCreateMessage msg, SEvent.fbSendTopic (heap t)])
      | none =>
        match err with
        | some e => ((none, some e), [SEvent.storeCreateMessage msg])
        | none => ((persisted, none), [SEvent.storeCreateMessage msg])

/-- Go `func (app *Application) updateMessage(user, message)`.  The result is
`none` on a nil-pointer panic: the stored record's `Sender` pointer is
dereferenced unconditionally, and `user.Email` is read (short-circuit: only
after `persistedMessage.Sender.User != nil` holds).  The sender check
`persistedMessage.Sender.User.Email == user.Email` is a Go `*string`
comparison, i.e. address equality. -/
def updateMessage (heap : Nat → String)
    (user : Option Model.ShibbolethUser) (message : Model.Message)
    (storeGetMessage : String → Option Model.Message × Option String)
    (storeUpdateMessage : Model.Message → Option Model.Message × Option String) :
    Option ((Option Model.Message × Option String) × List SEvent) :=
  match message.ID with
  | none => some ((none, some "missing id or record"), [])
  | some a =>
    let (persisted, err) := storeGetMessage (heap a)
    match err, persisted with
    | none, some pm =>
      match pm.Sender with
      | none => none
      | some s =>
        match s.User with
        | none =>
          some ((none, some "only creator can update the original message"),
                [SEvent.storeGetMessage (heap a)])
        | some su =>
          match user with
          | none => none
          | some u =>
            if su.Email == u.Email then
              some (storeUpdateMessage message,
                    [SEvent.storeGetMessage (heap a), SEvent.storeUpdateMessage message])
            else
              some ((none, some "only creator can update the original message"),
                    [SEvent.storeGetMessage (heap a)])
    | _, _ => some ((none, some "missing id or record"), [SEvent.storeGetMessage (heap a)])

/-- Go `func (app *Application) deleteUserMessage(user, messageID)`: a single
line, `return app.storage.DeleteUserMessage(*user.Email, messageID)`, which
dereferences `user` and then `user.Email` with no nil checks — `none` models
the panic on either nil. -/
def deleteUserMessage (heap : Nat → String)
    (user : Option Model.ShibbolethUser) (messageID : String)
    (storeDel : String → String → Option String) :
    Option (Option String × List SEvent) :=
  match user with
  | none => none
  | some u =>
    match u.Email with
    | none => none
    | some a =>
      some (storeDel (heap a) messageID, [SEvent.storeDeleteUserMessage (heap a) messageID])

end Core

section UserTheorems

/-- Membership reading of the linear-scan duplicate test in `AddToken` and
`AddTopic`. -/
theorem any_beq_eq_true_iff (tok : String) (l : List String) :
    l.any (fun entry => tok == entry) = true ↔ tok ∈ l := by
  simp only [List.any_eq_true, beq_iff_eq]
  constructor
  · rintro ⟨x, hx, rfl⟩
    exact hx
  · intro h
    exact ⟨tok, h, rfl⟩

/-- Closed form of `AddToken`: the token list is the old one when the token
is already present, the old one with the token appended otherwise (a nil list
counts as empty). -/
theorem Model.User.AddToken_eq (u : Model.User) (tok : String) :
    u.AddToken tok =
      { u with Tokens := some (if tok ∈ u.Tokens.getD [] then u.Tokens.getD []
                               else u.Tokens.getD [] ++ [tok]) } := by
  unfold Model.User.AddToken
  by_cases h : tok ∈ u.Tokens.getD []
  · rw [if_pos ((any_beq_eq_true_iff tok (u.Tokens.getD [])).mpr h), if_pos h]
  · rw [if_neg (fun hh => h ((any_beq_eq_true_iff tok (u.Tokens.getD [])).mp hh)), if_neg h]

/-- Closed form of `AddTopic`, same shape as `Model.User.AddToken_eq`. -/
theorem Model.User.AddTopic_eq (u : Model.User) (tp : String) :
    u.AddTopic tp =
      { u with Topics := some (if tp ∈ u.Topics.getD [] then u.Topics.getD []
                               else u.Topics.getD [] ++ [tp]) } := by
  unfold Model.User.AddTopic
  by_cases h : tp ∈ u.Topics.getD []
  · rw [if_pos ((any_beq_eq_true_iff tp (u.Topics.getD [])).mpr h), if_pos h]
  · rw [if_neg (fun hh => h ((any_beq_eq_true_iff tp (u.Topics.getD [])).mp hh)), if_neg h]

/-- Appending a fresh element keeps a list duplicate-free. -/
theorem nodup_append_singleton {l : List String} {a : String}
    (h : l.Nodup) (ha : a ∉ l) : (l ++ [a]).Nodup := by
  rw [List.nodup_append_comm]
  exact List.nodup_cons.mpr ⟨ha, h⟩

/-- Element just added by `AddToken` is in the resulting token list. -/
theorem Model.User.mem_AddToken (u : Model.User) (tok : String) :
    tok ∈ (u.AddToken tok).Tokens.getD [] := by
  rw [Model.User.AddToken_eq]
  by_cases hm : tok ∈ u.Tokens.getD [] <;> simp [hm]

/-- Element just added by `AddTopic` is in the resulting topic list. -/
theorem Model.User.mem_AddTopic (u : Model.User) (tp : String) :
    tp ∈ (u.AddTopic tp).Topics.getD [] := by
  rw [Model.User.AddTopic_eq]
  by_cases hm : tp ∈ u.Topics.getD [] <;> simp [hm]

/-- After any `AddToken` the token list is non-nil. -/
theorem Model.User.AddToken_tokens_some (u : Model.User) (tok : String) :
    (u.AddToken tok).Tokens = some ((u.AddToken tok).Tokens.getD []) := by
  rw [Model.User.AddToken_eq]
  rfl

/-- After any `AddTopic` the topic list is non-nil. -/
theorem Model.User.AddTopic_topics_some (u : Model.User) (tp : String) :
    (u.AddTopic tp).Topics = some ((u.AddTopic tp).Topics.getD []) := by
  rw [Model.User.AddTopic_eq]
  rfl

/-- C7: `AddToken`/`AddTopic` are duplicate-free and idempotent: they keep a
duplicate-free list duplicate-free, adding an already-present element leaves
the record unchanged, and a second identical addition is the identity, so the
stored sets keep their sizes. -/
theorem Model.User.add_token_topic_idempotent (u : Model.User) (tok tp : String) :
    ((u.Tokens.getD []).Nodup → ((u.AddToken tok).Tokens.getD []).Nodup)
    ∧ (∀ l, u.Tokens = some l → tok ∈ l → u.AddToken tok = u)
    ∧ (u.AddToken tok).AddToken tok = u.AddToken tok
    ∧ ((u.Topics.getD []).Nodup → ((u.AddTopic tp).Topics.getD []).Nodup)
    ∧ (∀ l, u.Topics = some l → tp ∈ l → u.AddTopic tp = u)
    ∧ (u.AddTopic tp).AddTopic tp = u.AddTopic tp := by
  refine ⟨?_, ?_, ?_, ?_, ?_, ?_⟩
  · intro h
    rw [Model.User.AddToken_eq]
    by_cases hm : tok ∈ u.Tokens.getD []
    · simpa [hm] using h
    · simpa [hm] using nodup_append_singleton h hm
  · intro l hl hmem
    rw [Model.User.AddToken_eq, hl]
    simp only [Option.getD_some, if_pos hmem]
    rw [← hl]
  · rw [Model.User.AddToken_eq (u.AddToken tok) tok,
        if_pos (Model.User.mem_AddToken u tok),
        ← Model.User.AddToken_tokens_some u tok]
  · intro h
    rw [Model.User.AddTopic_eq]
    by_cases hm : tp ∈ u.Topics.getD []
    · simpa [hm] using h
    · simpa [hm] using nodup_append_singleton h hm
  · intro l hl hmem
    rw [Model.User.AddTopic_eq, hl]
    simp only [Option.getD_some, if_pos hmem]
    rw [← hl]
  · rw [Model.User.AddTopic_eq (u.AddTopic tp) tp,
        if_pos (Model.User.mem_AddTopic u tp),
        ← Model.User.AddTopic_topics_some u tp]

/-- Registry record used to instantiate the `User` theorems. -/
def Model.userW : Model.User :=
  { ID := "u1", Tokens := some ["a"], UserID := some 0, Topics := some ["x"],
    DateCreated := 0, DateUpdated := 0 }

/-- Witness for C7 at a concrete record: adding a fresh token keeps the list
duplicate-free, re-adding a present token is the identity, and a repeated
topic addition changes nothing. -/
theorem Model.User.add_token_topic_idempotent_witness :
    ((Model.userW.AddToken "b").Tokens.getD []).Nodup
    ∧ Model.userW.AddToken "a" = Model.userW
    ∧ (Model.userW.AddTopic "y").AddTopic "y" = Model.userW.AddTopic "y" :=
  ⟨(Model.User.add_token_topic_idempotent Model.userW "b" "y").1 (by decide),
   (Model.User.add_token_topic_idempotent Model.userW "a" "y").2.1 ["a"] rfl (by decide),
   (Model.User.add_token_topic_idempotent Model.userW "b" "y").2.2.2.2.2⟩

/-- C8: removing an absent token or topic is a no-op: the record (hence the
list) is unchanged, and no error is possible (the Go methods return
nothing). -/
theorem Model.User.remove_absent_noop (u : Model.User) (tok tp : String) :
    (tok ∉ u.Tokens.getD [] → u.RemoveToken tok = u)
    ∧ (tp ∉ u.Topics.getD [] → u.RemoveTopic tp = u) := by
  constructor
  · intro hmem
    unfold Model.User.RemoveToken
    cases hT : u.Tokens with
    | none => rfl
    | some l =>
      rw [hT] at hmem
      simp only [Option.getD_some] at hmem
      have hfil : l.filter (fun entry => entry != tok) = l :=
        List.filter_eq_self.mpr (fun a ha => by
          simp only [bne_iff_ne, ne_eq, decide_eq_true_eq]
          exact fun h => hmem (h ▸ ha))
      show { u with Tokens := some (l.filter (fun entry => entry != tok)) } = u
      rw [hfil, ← hT]
  · intro hmem
    unfold Model.User.RemoveTopic
    cases hT : u.Topics with
    | none => rfl
    | some l =>
      rw [hT] at hmem
      simp only [Option.getD_some] at hmem
      have hfil : l.filter (fun entry => entry != tp) = l :=
        List.filter_eq_self.mpr (fun a ha => by
          simp only [bne_iff_ne, ne_eq, decide_eq_true_eq]
          exact fun h => hmem (h ▸ ha))
      show { u with Topics := some (l.filter (fun entry => entry != tp)) } = u
      rw [hfil, ← hT]

/-- Witness for C8 at a concrete record: removing a token and a topic that
are not registered leaves the record untouched. -/
theorem Model.User.remove_absent_noop_witness :
    Model.userW.RemoveToken "zz" = Model.userW
    ∧ Model.userW.RemoveTopic "yy" = Model.userW :=
  ⟨(Model.User.remove_absent_noop Model.userW "zz" "yy").1 (by decide),
   (Model.User.remove_absent_noop Model.userW "zz" "yy").2 (by decide)⟩

end UserTheorems

section ServiceTheorems

/-- C2 counter-evaluation: with a nil identity and an empty token, both
`subscribeToTopic` and `unsubscribeToTopic` return the nil error — even with
adapters that would fail every call — so no `ValidationError` (no error at
all) is produced. -/
theorem Core.subscribe_nil_user_empty_token_no_error :
    (Core.subscribeToTopic "" none "news"
        (fun _ _ _ => some "store down") (fun _ _ => some "gateway down")).1 = none
    ∧ (Core.unsubscribeToTopic "" none "news"
        (fun _ _ _ => some "store down") (fun _ _ => some "gateway down")).1 = none := by
  exact ⟨rfl, rfl⟩

/-- C2 (amended): with a nil identity and an empty token, both operations
perform no store call and no gateway call and return the nil error — a
silent no-op rather than a `ValidationError`. -/
theorem Core.subscribe_nil_user_empty_token_silent_noop (topic : String)
    (storeSub storeUnsub : String → Model.GoStr → String → Option String)
    (fbSub fbUnsub : String → String → Option String) :
    Core.subscribeToTopic "" none topic storeSub fbSub = (none, [])
    ∧ Core.unsubscribeToTopic "" none topic storeUnsub fbUnsub = (none, []) := by
  exact ⟨rfl, rfl⟩

/-- C5: with a non-nil identity the store write is issued first; on a store
error the operation aborts with that error and the whole trace is the single
store call (no gateway call); on store success the gateway call follows, its
error (if any) becomes the result, and the trace shows exactly the store
write followed by the gateway call — no compensating store call, i.e. no
rollback.  Symmetrically for `unsubscribeToTopic`. -/
theorem Core.subscribe_store_first_no_rollback (token topic : String)
    (u : Model.ShibbolethUser)
    (storeSub storeUnsub : String → Model.GoStr → String → Option String)
    (fbSub fbUnsub : String → String → Option String) :
    (∀ e, storeSub token u.Email topic = some e →
        Core.subscribeToTopic token (some u) topic storeSub fbSub =
          (some e, [Core.SEvent.storeSub token u.Email topic]))
    ∧ (storeSub token u.Email topic = none →
        Core.subscribeToTopic token (some u) topic storeSub fbSub =
          (fbSub token topic,
           [Core.SEvent.storeSub token u.Email topic, Core.SEvent.fbSub token topic]))
    ∧ (∀ e, storeUnsub token u.Email topic = some e →
        Core.unsubscribeToTopic token (some u) topic storeUnsub fbUnsub =
          (some e, [Core.SEvent.storeUnsub token u.Email topic]))
    ∧ (storeUnsub token u.Email topic = none →
        Core.unsubscribeToTopic token (some u) topic storeUnsub fbUnsub =
          (fbUnsub token topic,
           [Core.SEvent.storeUnsub token u.Email topic, Core.SEvent.fbUnsub token topic])) := by
  refine ⟨?_, ?_, ?_, ?_⟩
  · intro e h
    simp [Core.subscribeToTopic, h]
  · intro h
    simp [Core.subscribeToTopic, h]
  · intro e h
    simp [Core.unsubscribeToTopic, h]
  · intro h
    simp [Core.unsubscribeToTopic, h]

/-- Identity used to instantiate the service theorems; its `Email` pointer is
the cell at address 0. -/
def Model.shibUserW : Model.ShibbolethUser :=
  { Uin := none, Email := some 0, Phone := none, Membership := none }

/-- Witness for C5: a failing store write aborts the subscribe before any
gateway call, and a failing gateway unsubscribe after a successful store
removal surfaces the gateway error with both calls in the trace. -/
theorem Core.subscribe_store_first_no_rollback_witness :
    Core.subscribeToTopic "tk" (some Model.shibUserW) "tp"
        (fun _ _ _ => some "store down") (fun _ _ => none) =
      (some "store down", [Core.SEvent.storeSub "tk" (some 0) "tp"])
    ∧ Core.unsubscribeToTopic "tk" (some Model.shibUserW) "tp"
        (fun _ _ _ => none) (fun _ _ => some "gateway down") =
      (some "gateway down",
       [Core.SEvent.storeUnsub "tk" (some 0) "tp", Core.SEvent.fbUnsub "tk" "tp"]) :=
  ⟨(Core.subscribe_store_first_no_rollback "tk" "tp" Model.shibUserW
      (fun _ _ _ => some "store down") (fun _ _ _ => none)
      (fun _ _ => none) (fun _ _ => some "gateway down")).1 "store down" rfl,
   (Core.subscribe_store_first_no_rollback "tk" "tp" Model.shibUserW
      (fun _ _ _ => some "store down") (fun _ _ _ => none)
      (fun _ _ => none) (fun _ _ => some "gateway down")).2.2.2 rfl⟩

/-- Sender stamping does not touch the recipient list. -/
theorem Core.setSender_Recipients (user : Option Model.ShibbolethUser)
    (message : Model.Message) :
    (Core.setSender user message).Recipients = message.Recipients := by
  cases user <;> rfl

/-- C6: once the draft persisted successfully and the recipient tokens
resolved, `createMessage` returns the persisted message with the nil error,
and the trace contains one `fbSendToken` per resolved token — for EVERY
per-token failure pattern `fbSendToken`, which is universally quantified and
absent from all hypotheses. -/
theorem Core.createMessage_best_effort_sends (heap : Nat → String)
    (user : Option Model.ShibbolethUser) (message : Model.Message)
    (storeCreate : Model.Message → Option Model.Message × Option String)
    (storeGetTokens : List Model.Recipient → List String × Option String)
    (fbSendToken fbSendTopic : String → Option String)
    (pm : Model.Message) (tokens : List String)
    (hid : message.ID = none)
    (hrec : message.Recipients ≠ [])
    (hcreate : storeCreate (Core.setSender user message) = (some pm, none))
    (htok : storeGetTokens message.Recipients = (tokens, none)) :
    Core.createMessage heap user message storeCreate storeGetTokens fbSendToken fbSendTopic =
      ((some pm, none),
       [Core.SEvent.storeCreateMessage (Core.setSender user message),
        Core.SEvent.storeGetTokens message.Recipients]
         ++ tokens.map Core.SEvent.fbSendToken) := by
  simp [Core.createMessage, hid, hcreate, Core.setSender_Recipients, hrec, htok]

/-- Recipient whose `UserID` pointer is the cell at address 0. -/
def Model.recipientW : Model.Recipient :=
  { UserID := some 0, Name := none, NotificationDisabled := false }

/-- Draft addressed to one recipient, with no id yet. -/
def Model.msgW : Model.Message :=
  { ID := none, DateCreated := none, DateUpdated := none, Priority := 0,
    Recipients := [Model.recipientW], Topic := none, Subject := "subj",
    Sender := none, Body := "body", Data := [] }

/-- Stored copy of `Model.msgW` as the store would return it. -/
def Model.persistedW : Model.Message :=
  { Model.msgW with ID := some 5, Sender := some { SType := "system", User := none } }

/-- Witness for C6: both resolved tokens are sent to even though every send
fails, and the persisted message is still returned with the nil error. -/
theorem Core.createMessage_best_effort_sends_witness :
    Core.createMessage (fun _ => "") none Model.msgW
      (fun _ => (some Model.persistedW, none))
      (fun _ => (["t1", "t2"], none))
      (fun _ => some "send failed")
      (fun _ => none) =
      ((some Model.persistedW, none),
       [Core.SEvent.storeCreateMessage (Core.setSender none Model.msgW),
        Core.SEvent.storeGetTokens [Model.recipientW]]
         ++ ["t1", "t2"].map Core.SEvent.fbSendToken) :=
  Core.createMessage_best_effort_sends (fun _ => "") none Model.msgW
    (fun _ => (some Model.persistedW, none)) (fun _ => (["t1", "t2"], none))
    (fun _ => some "send failed") (fun _ => none) Model.persistedW ["t1", "t2"]
    rfl (by decide) rfl rfl

/-- Draft with no recipients and a topic pointer (cell 1). -/
def Model.msgTopicW : Model.Message :=
  { Model.msgW with Recipients := [], Topic := some 1 }

/-- C1 counter-evaluation at the failing input: when `storage.CreateMessage`
fails, the recipients branch still resolves tokens and issues the per-token
send (trace ends with `fbSendToken "t1"`), and the topic branch still issues
the broadcast and — the broadcast having succeeded — overwrites the
persistence error, returning the nil message with the nil error. -/
theorem Core.createMessage_persist_failure_still_delivers :
    Core.createMessage (fun _ => "sports") none Model.msgW
      (fun _ => (none, some "store down")) (fun _ => (["t1"], none))
      (fun _ => none) (fun _ => none) =
      ((none, some "store down"),
       [Core.SEvent.storeCreateMessage (Core.setSender none Model.msgW),
        Core.SEvent.storeGetTokens [Model.recipientW],
        Core.SEvent.fbSendToken "t1"])
    ∧ Core.createMessage (fun _ => "sports") none Model.msgTopicW
      (fun _ => (none, some "store down")) (fun _ => ([], none))
      (fun _ => none) (fun _ => none) =
      ((none, none),
       [Core.SEvent.storeCreateMessage (Core.setSender none Model.msgTopicW),
        Core.SEvent.fbSendTopic "sports"]) := by
  exact ⟨rfl, rfl⟩

end ServiceTheorems

section AccessTheorems

/-- Heap in which every string cell holds the same email value. -/
def Model.heapEmails : Nat → String := fun _ => "sender@example.edu"

/-- Identity whose `Email` pointer is cell 0 (value `sender@example.edu`
under `Model.heapEmails`). -/
def Model.senderIdentity : Model.ShibbolethUser :=
  { Uin := none, Email := some 0, Phone := none, Membership := none }

/-- Identity whose `Email` pointer is cell 1 — under `Model.heapEmails` the
same email value as `Model.senderIdentity`, at a different address. -/
def Model.readerIdentity : Model.ShibbolethUser :=
  { Uin := none, Email := some 1, Phone := none, Membership := none }

/-- Message sent by `Model.senderIdentity`, with no recipients. -/
def Model.msgSenderOnly : Model.Message :=
  { Model.msgW with
    Recipients := [],
    Sender := some { SType := "user", User := some Model.senderIdentity } }

/-- System message whose only recipient's `UserID` pointer is cell 0. -/
def Model.msgRecipientOnly : Model.Message :=
  { Model.msgW with
    Recipients := [{ UserID := some 0, Name := none, NotificationDisabled := false }],
    Sender := some { SType := "system", User := none } }

/-- C3 counter-evaluation: under `Model.heapEmails` the identity at cell 1
carries the same email VALUE as the sender (cell 0) and as the recipient's
user id (cell 0), yet `HasUser` answers `false` in both cases, because the Go
code compares the `*string` addresses, not the values. -/
theorem Model.Message.HasUser_pointer_not_value :
    Model.heapEmails 0 = Model.heapEmails 1
    ∧ Model.msgSenderOnly.HasUser (some Model.readerIdentity) = some false
    ∧ Model.msgRecipientOnly.HasUser (some Model.readerIdentity) = some false := by
  exact ⟨rfl, rfl, rfl⟩

/-- C9: on a message whose `Sender` pointer is nil, any non-nil identity
whose `Email` pointer matches no recipient's `UserID` pointer drives
`HasUser` into the nil dereference of `m.Sender` — the `none` (panic) result
— instead of `false`. -/
theorem Model.Message.HasUser_nil_sender_panics (m : Model.Message)
    (u : Model.ShibbolethUser)
    (hs : m.Sender = none)
    (hr : ∀ r ∈ m.Recipients, r.UserID ≠ u.Email) :
    m.HasUser (some u) = none := by
  have hany : (m.Recipients.any fun recipient => recipient.UserID == u.Email) = false := by
    rw [Bool.eq_false_iff]
    intro hh
    rw [List.any_eq_true] at hh
    obtain ⟨r, hrin, hbe⟩ := hh
    exact hr r hrin (by simpa using hbe)
  simp [Model.Message.HasUser, hany, hs]

/-- Message with a nil `Sender` pointer and one non-matching recipient. -/
def Model.msgNilSender : Model.Message := { Model.msgW with Sender := none }

/-- Witness for C9: the reader identity (email cell 1) matches neither the
recipient (user id cell 0) nor anything else, and `HasUser` panics. -/
theorem Model.Message.HasUser_nil_sender_panics_witness :
    Model.msgNilSender.HasUser (some Model.readerIdentity) = none :=
  Model.Message.HasUser_nil_sender_panics Model.msgNilSender Model.readerIdentity
    rfl (by decide)

end AccessTheorems

section UpdateDeleteTheorems

/-- Stored sender snapshot without an email (`Email` is the nil pointer). -/
def Model.storedSenderNilEmail : Model.ShibbolethUser :=
  { Uin := some 2, Email := none, Phone := none, Membership := none }

/-- A different person (different `Uin`), also without an email. -/
def Model.impostor : Model.ShibbolethUser :=
  { Uin := some 3, Email := none, Phone := none, Membership := none }

/-- Stored message (id cell 0) whose sender snapshot has a nil email. -/
def Model.storedMsg : Model.Message :=
  { Model.msgW with
    ID := some 0,
    Recipients := [],
    Sender := some { SType := "user", User := some Model.storedSenderNilEmail } }

/-- Update draft for `Model.storedMsg` submitted by the impostor. -/
def Model.updateDraft : Model.Message := { Model.storedMsg with Subject := "changed" }

/-- Heap for the update scenarios: cell 0 holds the message id, every other
cell holds the creator's email value. -/
def Model.heapIds : Nat → String := fun a => if a = 0 then "m1" else "creator@example.edu"

/-- Creator snapshot as stored (email cell 4). -/
def Model.creatorStored : Model.ShibbolethUser :=
  { Uin := some 2, Email := some 4, Phone := none, Membership := none }

/-- The same creator calling in, with a freshly allocated email cell 5 that
holds the same value under `Model.heapIds`. -/
def Model.creatorCaller : Model.ShibbolethUser :=
  { Uin := some 2, Email := some 5, Phone := none, Membership := none }

/-- Stored message variant whose sender snapshot is `Model.creatorStored`. -/
def Model.storedMsg2 : Model.Message :=
  { Model.storedMsg with Sender := some { SType := "user", User := some Model.creatorStored } }

/-- C4 counter-evaluation: the sender check compares `*string` addresses, so
(1) the impostor — a different `Uin`, nil email, hence a nil `Email` pointer
equal to the stored nil pointer — sails through authorization and reaches
`storage.UpdateMessage`, which succeeds; and (2) the genuine creator, whose
email cell (5) holds the same VALUE as the stored cell (4) but is a different
address, is rejected with the authorization error and `UpdateMessage` is
never called. -/
theorem Core.updateMessage_pointer_auth_bug :
    Core.updateMessage Model.heapIds (some Model.impostor) Model.updateDraft
      (fun _ => (some Model.storedMsg, none)) (fun mm => (some mm, none)) =
      some ((some Model.updateDraft, none),
            [Core.SEvent.storeGetMessage "m1",
             Core.SEvent.storeUpdateMessage Model.updateDraft])
    ∧ Model.heapIds 4 = Model.heapIds 5
    ∧ Core.updateMessage Model.heapIds (some Model.creatorCaller) Model.updateDraft
      (fun _ => (some Model.storedMsg2, none)) (fun mm => (some mm, none)) =
      some ((none, some "only creator can update the original message"),
            [Core.SEvent.storeGetMessage "m1"]) := by
  exact ⟨rfl, rfl, rfl⟩

/-- C10: `deleteUserMessage` panics (result `none`) exactly when the identity
is nil or its `Email` pointer is nil; whenever both are present it issues the
store delete with the dereferenced email value and returns the store's
result, so the nil dereference — not a `ValidationError` — is what an absent
identity or email produces. -/
theorem Core.deleteUserMessage_email_precondition (heap : Nat → String)
    (storeDel : String → String → Option String)
    (user : Option Model.ShibbolethUser) (messageID : String) :
    (Core.deleteUserMessage heap user messageID storeDel = none
      ↔ user.bind Model.ShibbolethUser.Email = none)
    ∧ (∀ u a, user = some u → u.Email = some a →
        Core.deleteUserMessage heap user messageID storeDel =
          some (storeDel (heap a) messageID,
                [Core.SEvent.storeDeleteUserMessage (heap a) messageID])) := by
  constructor
  · cases user with
    | none => simp [Core.deleteUserMessage]
    | some u =>
      cases hE : u.Email with
      | none => simp [Core.deleteUserMessage, hE]
      | some a => simp [Core.deleteUserMessage, hE]
  · rintro u a rfl hE
    simp [Core.deleteUserMessage, hE]

/-- Witness for C10: with identity and email present the call goes through to
the store with the dereferenced email value. -/
theorem Core.deleteUserMessage_email_precondition_witness :
    Core.deleteUserMessage Model.heapEmails (some Model.senderIdentity) "m1"
        (fun _ _ => none) =
      some (none, [Core.SEvent.storeDeleteUserMessage "sender@example.edu" "m1"]) :=
  (Core.deleteUserMessage_email_precondition Model.heapEmails (fun _ _ => none)
      (some Model.senderIdentity) "m1").2 Model.senderIdentity 0 rfl rfl

end UpdateDeleteTheorems
